import Mathlib

/-!
# BoosterCore and DataFrameBoosting

A shallow embedding of `shared/ebm_native/BoosterCore.hpp` and
`shared/ebm_native/DataFrameBoosting.h`.

* A raw C pointer is `Pointer`: `none` is `nullptr`, `some a` is the address `a`.
* `size_t` fields are `Nat`; the only one the headers do arithmetic on is
  `m_REFERENCE_COUNT`, which is updated modulo `2 ^ w` for a word width `w`.
* `double` / `FloatBig` values are only stored and handed back by this code, so they
  are kept as their IEEE-754 bit pattern (`0` is the pattern of `+0.0`).
* Member functions are state passing: a member returns its result together with
  the object state it leaves behind.
* `EBM_ASSERT` is a checked precondition: a failing assertion is `Except.error`.
-/

namespace EbmNative

/-! ## Shared vocabulary -/

/-- A raw pointer: `none` is `nullptr`. -/
abbrev Pointer := Option Nat

/-- The null pointer constant. -/
abbrev nullptr : Pointer := none

/-- Bit pattern of a `double` (`FloatBig`, `FloatEbmType`) value. -/
abbrev FloatBits := Nat

/-! ## DataFrameBoosting.h -/

/-- Modelled from the spec: `FeatureGroup.h` is not part of this development.
A feature group (term) carries "a stable index identifying its position among all
terms (used to address per-term arrays in the dataset)", which is what
`GetIndexInputData()` returns. -/
structure FeatureGroup where
  m_iInputData : Nat
  deriving DecidableEq

/-- Member `FeatureGroup::GetIndexInputData`. -/
def FeatureGroup.GetIndexInputData (g : FeatureGroup) : Nat := g.m_iInputData

/-- The fields of `class DataFrameBoosting`, in declaration order.
`m_aaInputData` is a pointer to a table of pointers: when it is not null, the memory
it points to is read by offset. -/
structure DataFrameBoosting where
  m_aGradientsAndHessians : Pointer
  m_aPredictorScores : Pointer
  m_aTargetData : Pointer
  m_aaInputData : Option (Nat → Pointer)
  m_cSamples : Nat
  m_cFeatureGroups : Nat

/-- The `EBM_ASSERT` sites of `DataFrameBoosting.h`, named by the asserted condition. -/
inductive AssertFailure
  | gradientsAndHessiansNotNull
  | predictorScoresNotNull
  | targetDataNotNull
  | featureGroupNotNull
  | indexInputDataBelowCount
  | inputDataNotNull
  deriving DecidableEq

/-- Modelled from the spec: the macro `EBM_ASSERT` lives in `Logging.h`, which is not
part of this development. The spec treats it as an "unconditional precondition
failure": the call does not return a value when the condition is false. -/
def EBM_ASSERT (cond : Bool) (site : AssertFailure) : Except AssertFailure Unit :=
  if cond then .ok () else .error site

namespace DataFrameBoosting

/-- Member `InitializeZero`: six assignments. -/
def InitializeZero (d : DataFrameBoosting) : DataFrameBoosting :=
  { d with
    m_aGradientsAndHessians := nullptr
    m_aPredictorScores := nullptr
    m_aTargetData := nullptr
    m_aaInputData := none
    m_cSamples := 0
    m_cFeatureGroups := 0 }

/-- Member `GetGradientsAndHessiansPointer()` (non-const overload). -/
def GetGradientsAndHessiansPointer (d : DataFrameBoosting) : Except AssertFailure Pointer := do
  EBM_ASSERT (nullptr != d.m_aGradientsAndHessians) .gradientsAndHessiansNotNull
  return d.m_aGradientsAndHessians

/-- Member `GetGradientsAndHessiansPointer() const`. -/
def GetGradientsAndHessiansPointerConst (d : DataFrameBoosting) :
    Except AssertFailure Pointer := do
  EBM_ASSERT (nullptr != d.m_aGradientsAndHessians) .gradientsAndHessiansNotNull
  return d.m_aGradientsAndHessians

/-- Member `GetPredictorScores()`. -/
def GetPredictorScores (d : DataFrameBoosting) : Except AssertFailure Pointer := do
  EBM_ASSERT (nullptr != d.m_aPredictorScores) .predictorScoresNotNull
  return d.m_aPredictorScores

/-- Member `GetTargetDataPointer() const`. -/
def GetTargetDataPointer (d : DataFrameBoosting) : Except AssertFailure Pointer := do
  EBM_ASSERT (nullptr != d.m_aTargetData) .targetDataNotNull
  return d.m_aTargetData

/-- Member `GetInputDataPointer(pFeatureGroup) const`: three assertions, then the
table entry at the group's index. Dereferencing happens only after the assertion
that guards it. -/
def GetInputDataPointer (d : DataFrameBoosting) (pFeatureGroup : Option FeatureGroup) :
    Except AssertFailure Pointer :=
  match pFeatureGroup with
  | none => .error .featureGroupNotNull
  | some g => do
    EBM_ASSERT (decide (g.GetIndexInputData < d.m_cFeatureGroups)) .indexInputDataBelowCount
    match d.m_aaInputData with
    | none => .error .inputDataNotNull
    | some table => return table g.GetIndexInputData

/-- Member `GetCountSamples() const`. -/
def GetCountSamples (d : DataFrameBoosting) : Nat := d.m_cSamples

/-- Member `GetCountFeatureGroups() const`. -/
def GetCountFeatureGroups (d : DataFrameBoosting) : Nat := d.m_cFeatureGroups

end DataFrameBoosting

/-! ## BoosterCore.hpp -/

/-- The two `DataSetBoosting` members of `BoosterCore`; `GetTrainingSet` and
`GetValidationSet` return the address of one of them. -/
inductive DataSetMember
  | m_trainingSet
  | m_validationSet
  deriving DecidableEq

/-- The fields of `class BoosterCore`, in declaration order. `DataSetBoosting.hpp` is
not part of this development, so the dataset record is the type parameter `D`. -/
structure BoosterCore (D : Type) where
  m_REFERENCE_COUNT : Nat
  m_cClasses : Int
  m_cFeatures : Nat
  m_aFeatures : Pointer
  m_cTerms : Nat
  m_apTerms : Pointer
  m_cInnerBags : Nat
  m_apInnerBags : Pointer
  m_validationWeightTotal : FloatBits
  m_aValidationWeights : Pointer
  m_apCurrentTermTensors : Pointer
  m_apBestTermTensors : Pointer
  m_bestModelMetric : FloatBits
  m_cBytesFastBins : Nat
  m_cBytesBigBins : Nat
  m_cBytesSplitPositions : Nat
  m_cBytesTreeNodes : Nat
  m_trainingSet : D
  m_validationSet : D

/-- The fields the destructor releases. -/
inductive OwnedField
  | m_trainingSet
  | m_validationSet
  | m_apInnerBags
  | m_aValidationWeights
  | m_apTerms
  | m_aFeatures
  | m_apCurrentTermTensors
  | m_apBestTermTensors
  deriving DecidableEq

/-- Every owned field, in declaration order of the class. -/
def OwnedField.all : List OwnedField :=
  [.m_aFeatures, .m_apTerms, .m_apInnerBags, .m_aValidationWeights,
   .m_apCurrentTermTensors, .m_apBestTermTensors, .m_trainingSet, .m_validationSet]

/-- One call made by the destructor. The callees (`DataSetBoosting::Destruct`,
`InnerBag::FreeInnerBags`, `free`, `Term::FreeTerms`, `DeleteTensors`) are defined
outside the header, so a call is recorded with its arguments. -/
inductive ReleaseCall
  | Destruct (dataSet : DataSetMember)
  | FreeInnerBags (cInnerBags : Nat) (apInnerBags : Pointer) (field : OwnedField)
  | free (p : Pointer) (field : OwnedField)
  | FreeTerms (cTerms : Nat) (apTerms : Pointer) (field : OwnedField)
  | DeleteTensors (cTerms : Nat) (apTensors : Pointer) (field : OwnedField)
  deriving DecidableEq

/-- The owned field a destructor call releases. -/
def ReleaseCall.target : ReleaseCall → OwnedField
  | .Destruct .m_trainingSet => .m_trainingSet
  | .Destruct .m_validationSet => .m_validationSet
  | .FreeInnerBags _ _ f => f
  | .free _ f => f
  | .FreeTerms _ _ f => f
  | .DeleteTensors _ _ f => f

namespace BoosterCore

variable {D : Type}

/-- The destructor `~BoosterCore()`: eight calls, in source order. -/
def destructor (c : BoosterCore D) : List ReleaseCall :=
  [ .Destruct .m_trainingSet,
    .Destruct .m_validationSet,
    .FreeInnerBags c.m_cInnerBags c.m_apInnerBags .m_apInnerBags,
    .free c.m_aValidationWeights .m_aValidationWeights,
    .FreeTerms c.m_cTerms c.m_apTerms .m_apTerms,
    .free c.m_aFeatures .m_aFeatures,
    .DeleteTensors c.m_cTerms c.m_apCurrentTermTensors .m_apCurrentTermTensors,
    .DeleteTensors c.m_cTerms c.m_apBestTermTensors .m_apBestTermTensors ]

/-- The constructor `BoosterCore()`. The two dataset members start as whatever the
storage holds (`rawTraining`, `rawValidation`) and are passed through
`DataSetBoosting::InitializeUnfailing`, which is defined outside the header and so is
the parameter `InitializeUnfailing`. -/
def new (InitializeUnfailing : D → D) (rawTraining rawValidation : D) : BoosterCore D where
  m_REFERENCE_COUNT := 1
  m_cClasses := 0
  m_cFeatures := 0
  m_aFeatures := nullptr
  m_cTerms := 0
  m_apTerms := nullptr
  m_cInnerBags := 0
  m_apInnerBags := nullptr
  m_validationWeightTotal := 0
  m_aValidationWeights := nullptr
  m_apCurrentTermTensors := nullptr
  m_apBestTermTensors := nullptr
  m_bestModelMetric := 0
  m_cBytesFastBins := 0
  m_cBytesBigBins := 0
  m_cBytesSplitPositions := 0
  m_cBytesTreeNodes := 0
  m_trainingSet := InitializeUnfailing rawTraining
  m_validationSet := InitializeUnfailing rawValidation

/-- Member `AddReferenceCount()`: `m_REFERENCE_COUNT.fetch_add(1, relaxed)` on a
`size_t` of `w` bits. -/
def AddReferenceCount (w : Nat) (c : BoosterCore D) : BoosterCore D :=
  { c with m_REFERENCE_COUNT := (c.m_REFERENCE_COUNT + 1) % 2 ^ w }

/-- Member `GetCountClasses() const`. -/
def GetCountClasses (c : BoosterCore D) : Int × BoosterCore D := (c.m_cClasses, c)

/-- Member `GetCountBytesFastBins() const`. -/
def GetCountBytesFastBins (c : BoosterCore D) : Nat × BoosterCore D := (c.m_cBytesFastBins, c)

/-- Member `GetCountBytesBigBins() const`. -/
def GetCountBytesBigBins (c : BoosterCore D) : Nat × BoosterCore D := (c.m_cBytesBigBins, c)

/-- Member `GetCountBytesSplitPositions() const`. -/
def GetCountBytesSplitPositions (c : BoosterCore D) : Nat × BoosterCore D :=
  (c.m_cBytesSplitPositions, c)

/-- Member `GetCountBytesTreeNodes() const`. -/
def GetCountBytesTreeNodes (c : BoosterCore D) : Nat × BoosterCore D :=
  (c.m_cBytesTreeNodes, c)

/-- Member `GetCountTerms() const`. -/
def GetCountTerms (c : BoosterCore D) : Nat × BoosterCore D := (c.m_cTerms, c)

/-- Member `GetTerms() const`. -/
def GetTerms (c : BoosterCore D) : Pointer × BoosterCore D := (c.m_apTerms, c)

/-- Member `GetTrainingSet()`: the address of the member `m_trainingSet`. -/
def GetTrainingSet (c : BoosterCore D) : DataSetMember × BoosterCore D := (.m_trainingSet, c)

/-- Member `GetValidationSet()`: the address of the member `m_validationSet`. -/
def GetValidationSet (c : BoosterCore D) : DataSetMember × BoosterCore D :=
  (.m_validationSet, c)

/-- Reading a dataset member through the address a getter returned. -/
def deref (c : BoosterCore D) : DataSetMember → D
  | .m_trainingSet => c.m_trainingSet
  | .m_validationSet => c.m_validationSet

/-- Member `GetCountInnerBags() const`. -/
def GetCountInnerBags (c : BoosterCore D) : Nat × BoosterCore D := (c.m_cInnerBags, c)

/-- Member `GetInnerBags() const`. -/
def GetInnerBags (c : BoosterCore D) : Pointer × BoosterCore D := (c.m_apInnerBags, c)

/-- Member `GetValidationWeightTotal() const`. -/
def GetValidationWeightTotal (c : BoosterCore D) : FloatBits × BoosterCore D :=
  (c.m_validationWeightTotal, c)

/-- Member `GetValidationWeights() const`. -/
def GetValidationWeights (c : BoosterCore D) : Pointer × BoosterCore D :=
  (c.m_aValidationWeights, c)

/-- Member `GetCurrentModel() const`. -/
def GetCurrentModel (c : BoosterCore D) : Pointer × BoosterCore D :=
  (c.m_apCurrentTermTensors, c)

/-- Member `GetBestModel() const`. -/
def GetBestModel (c : BoosterCore D) : Pointer × BoosterCore D := (c.m_apBestTermTensors, c)

/-- Member `GetBestModelMetric() const`. -/
def GetBestModelMetric (c : BoosterCore D) : FloatBits × BoosterCore D :=
  (c.m_bestModelMetric, c)

/-- Member `SetBestModelMetric(bestModelMetric)`: one assignment. -/
def SetBestModelMetric (c : BoosterCore D) (bestModelMetric : FloatBits) : BoosterCore D :=
  { c with m_bestModelMetric := bestModelMetric }

/-- Modelled from the spec: `BoosterCore::Free` is only declared in the header; its
body is in a source file that is not part of this development. The spec: "decrements the
reference count; if it reaches zero, destructs all owned arrays/datasets and
releases the Core's own storage." The decrement is on a `size_t` of `w` bits. The
result is the object that remains (`none` once its storage is released) and, when
teardown ran, the calls the destructor made. -/
def Free (w : Nat) (c : BoosterCore D) : Option (BoosterCore D) × Option (List ReleaseCall) :=
  let count := (c.m_REFERENCE_COUNT + 2 ^ w - 1) % 2 ^ w
  if count = 0 then (none, some c.destructor)
  else (some { c with m_REFERENCE_COUNT := count }, none)

/-- Repeated `AddReferenceCount()` calls, `n` of them. -/
def addReferences (w : Nat) : Nat → BoosterCore D → BoosterCore D
  | 0, c => c
  | n + 1, c => addReferences w n (c.AddReferenceCount w)

end BoosterCore

/-! ## Lifecycle runs -/

/-- The two lifecycle calls a holder of a core can make. -/
inductive LifecycleCall
  | AddReferenceCount
  | Free
  deriving DecidableEq

/-- What one lifecycle call did: it returned, having run teardown or not, or it was
made on a core whose storage was already released (which the code does not define). -/
inductive CallOutcome
  | returned (teardownRan : Bool)
  | useAfterRelease
  deriving DecidableEq

/-- One lifecycle call on a live core. -/
def lifecycleStep {D : Type} (w : Nat) (c : BoosterCore D) :
    LifecycleCall → Option (BoosterCore D) × CallOutcome
  | .AddReferenceCount => (some (c.AddReferenceCount w), .returned false)
  | .Free => ((c.Free w).1, .returned (c.Free w).2.isSome)

/-- A sequence of lifecycle calls, made one after the other on the same core. -/
def runLifecycle {D : Type} (w : Nat) :
    Option (BoosterCore D) → List LifecycleCall → List CallOutcome
  | _, [] => []
  | none, _ :: rest => .useAfterRelease :: @runLifecycle D w none rest
  | some c, call :: rest =>
    (lifecycleStep w c call).2 :: @runLifecycle D w (lifecycleStep w c call).1 rest

/-! ## Sample states -/

/-- A dataset with every optional array allocated and a three-entry input table. -/
def DataFrameBoosting.sampleFrame : DataFrameBoosting where
  m_aGradientsAndHessians := some 4096
  m_aPredictorScores := some 8192
  m_aTargetData := some 12288
  m_aaInputData := some (fun i => some (16384 + 4096 * i))
  m_cSamples := 100
  m_cFeatureGroups := 3

/-- A populated core with two terms and one inner bag, holding `count` references.
Its dataset members are plain numbers standing for the two records. -/
def BoosterCore.sampleCore (count : Nat) : BoosterCore Nat where
  m_REFERENCE_COUNT := count
  m_cClasses := 2
  m_cFeatures := 3
  m_aFeatures := some 1000
  m_cTerms := 2
  m_apTerms := some 2000
  m_cInnerBags := 1
  m_apInnerBags := some 3000
  m_validationWeightTotal := 4626322717216342016
  m_aValidationWeights := some 4000
  m_apCurrentTermTensors := some 5000
  m_apBestTermTensors := some 6000
  m_bestModelMetric := 4602678819172646912
  m_cBytesFastBins := 64
  m_cBytesBigBins := 128
  m_cBytesSplitPositions := 32
  m_cBytesTreeNodes := 256
  m_trainingSet := 7
  m_validationSet := 8

/-- A freshly constructed core over numeric dataset stand-ins, where the unfailing
initial state of a dataset is `0`. -/
def BoosterCore.freshCore : BoosterCore Nat := BoosterCore.new (fun _ => 0) 7 8

/-! ## Theorems: DataFrameBoosting -/

namespace DataFrameBoosting

/-- Claim C2. Each of the four array accessors (`GetGradientsAndHessiansPointer` in
both overloads, `GetPredictorScores`, `GetTargetDataPointer`) fails its assertion
exactly when its own field is null and otherwise returns that field; after
`InitializeZero` all four fail. -/
theorem accessor_fails_iff_array_null (d : DataFrameBoosting) :
    (d.GetGradientsAndHessiansPointer =
        if d.m_aGradientsAndHessians = nullptr then .error .gradientsAndHessiansNotNull
        else .ok d.m_aGradientsAndHessians) ∧
    (d.GetGradientsAndHessiansPointerConst =
        if d.m_aGradientsAndHessians = nullptr then .error .gradientsAndHessiansNotNull
        else .ok d.m_aGradientsAndHessians) ∧
    (d.GetPredictorScores =
        if d.m_aPredictorScores = nullptr then .error .predictorScoresNotNull
        else .ok d.m_aPredictorScores) ∧
    (d.GetTargetDataPointer =
        if d.m_aTargetData = nullptr then .error .targetDataNotNull
        else .ok d.m_aTargetData) ∧
    d.InitializeZero.GetGradientsAndHessiansPointer = .error .gradientsAndHessiansNotNull ∧
    d.InitializeZero.GetGradientsAndHessiansPointerConst =
      .error .gradientsAndHessiansNotNull ∧
    d.InitializeZero.GetPredictorScores = .error .predictorScoresNotNull ∧
    d.InitializeZero.GetTargetDataPointer = .error .targetDataNotNull := by
  refine ⟨?_, ?_, ?_, ?_, rfl, rfl, rfl, rfl⟩
  · cases h : d.m_aGradientsAndHessians <;>
      simp [GetGradientsAndHessiansPointer, EBM_ASSERT, h, bind, Except.bind, pure, Except.pure]
  · cases h : d.m_aGradientsAndHessians <;>
      simp [GetGradientsAndHessiansPointerConst, EBM_ASSERT, h, bind, Except.bind, pure,
        Except.pure]
  · cases h : d.m_aPredictorScores <;>
      simp [GetPredictorScores, EBM_ASSERT, h, bind, Except.bind, pure, Except.pure]
  · cases h : d.m_aTargetData <;>
      simp [GetTargetDataPointer, EBM_ASSERT, h, bind, Except.bind, pure, Except.pure]

/-- Unfolding of `GetInputDataPointer` on a non-null group. -/
theorem GetInputDataPointer_some (d : DataFrameBoosting) (g : FeatureGroup) :
    d.GetInputDataPointer (some g) =
      if g.GetIndexInputData < d.m_cFeatureGroups then
        match d.m_aaInputData with
        | none => .error .inputDataNotNull
        | some table => .ok (table g.GetIndexInputData)
      else .error .indexInputDataBelowCount := by
  by_cases h : g.GetIndexInputData < d.m_cFeatureGroups <;>
    cases ht : d.m_aaInputData <;>
    simp [GetInputDataPointer, EBM_ASSERT, h, ht, bind, Except.bind, pure, Except.pure]

/-- Claim C8. `GetInputDataPointer` returns a value exactly when the group is not
null, its index is strictly below `m_cFeatureGroups` and the table `m_aaInputData` is
not null; the value is then the table entry at that index, so every table read is at
an index below `m_cFeatureGroups`; two groups with the same index get the same
result. -/
theorem GetInputDataPointer_succeeds_iff (d : DataFrameBoosting)
    (pFeatureGroup : Option FeatureGroup) :
    ((∃ p, d.GetInputDataPointer pFeatureGroup = .ok p) ↔
      ∃ g table, pFeatureGroup = some g ∧ g.GetIndexInputData < d.m_cFeatureGroups ∧
        d.m_aaInputData = some table) ∧
    (∀ p, d.GetInputDataPointer pFeatureGroup = .ok p →
      ∃ g table, pFeatureGroup = some g ∧ d.m_aaInputData = some table ∧
        g.GetIndexInputData < d.m_cFeatureGroups ∧ p = table g.GetIndexInputData) ∧
    (∀ g table, pFeatureGroup = some g → g.GetIndexInputData < d.m_cFeatureGroups →
      d.m_aaInputData = some table →
      d.GetInputDataPointer pFeatureGroup = .ok (table g.GetIndexInputData)) ∧
    (∀ g₁ g₂ : FeatureGroup, g₁.GetIndexInputData = g₂.GetIndexInputData →
      d.GetInputDataPointer (some g₁) = d.GetInputDataPointer (some g₂)) := by
  have key : ∀ p, d.GetInputDataPointer pFeatureGroup = .ok p →
      ∃ g table, pFeatureGroup = some g ∧ d.m_aaInputData = some table ∧
        g.GetIndexInputData < d.m_cFeatureGroups ∧ p = table g.GetIndexInputData := by
    intro p hp
    cases pFeatureGroup with
    | none => simp [GetInputDataPointer] at hp
    | some g =>
      rw [GetInputDataPointer_some] at hp
      by_cases h : g.GetIndexInputData < d.m_cFeatureGroups
      · cases ht : d.m_aaInputData with
        | none => simp [h, ht] at hp
        | some table =>
          simp only [h, ht, if_true, Except.ok.injEq] at hp
          exact ⟨g, table, rfl, rfl, h, hp.symm⟩
      · simp [h] at hp
  have ok : ∀ g table, pFeatureGroup = some g → g.GetIndexInputData < d.m_cFeatureGroups →
      d.m_aaInputData = some table →
      d.GetInputDataPointer pFeatureGroup = .ok (table g.GetIndexInputData) := by
    intro g table hg h ht
    subst hg
    rw [GetInputDataPointer_some]
    simp [h, ht]
  refine ⟨⟨?_, ?_⟩, key, ok, ?_⟩
  · rintro ⟨p, hp⟩
    obtain ⟨g, table, hg, ht, h, -⟩ := key p hp
    exact ⟨g, table, hg, h, ht⟩
  · rintro ⟨g, table, hg, h, ht⟩
    exact ⟨_, ok g table hg h ht⟩
  · intro g₁ g₂ h
    rw [GetInputDataPointer_some, GetInputDataPointer_some, h]

/-- Claim C9. From any prior state `InitializeZero` gives the state with all four
array pointers null and both counts zero (as read by `GetCountSamples` and
`GetCountFeatureGroups`); it is idempotent; and in that state `GetInputDataPointer`
fails for every feature group argument. -/
theorem InitializeZero_resets (d : DataFrameBoosting) :
    d.InitializeZero.m_aGradientsAndHessians = nullptr ∧
    d.InitializeZero.m_aPredictorScores = nullptr ∧
    d.InitializeZero.m_aTargetData = nullptr ∧
    d.InitializeZero.m_aaInputData = none ∧
    d.InitializeZero.GetCountSamples = 0 ∧
    d.InitializeZero.GetCountFeatureGroups = 0 ∧
    d.InitializeZero.InitializeZero = d.InitializeZero ∧
    (∀ pFeatureGroup, ∃ e, d.InitializeZero.GetInputDataPointer pFeatureGroup = .error e) ∧
    (∀ g : FeatureGroup,
      d.InitializeZero.GetInputDataPointer (some g) = .error .indexInputDataBelowCount) := by
  refine ⟨rfl, rfl, rfl, rfl, rfl, rfl, rfl, ?_, ?_⟩
  · intro pFeatureGroup
    cases pFeatureGroup with
    | none => exact ⟨_, rfl⟩
    | some g =>
      refine ⟨.indexInputDataBelowCount, ?_⟩
      rw [GetInputDataPointer_some]
      simp [InitializeZero]
  · intro g
    rw [GetInputDataPointer_some]
    simp [InitializeZero]

/-- The accessors on the populated sample dataset: each array accessor returns its
own field, the table lookup returns the entry of the group's index, and the three
assertions of `GetInputDataPointer` fire in source order. -/
theorem sampleFrame_accessors :
    sampleFrame.GetGradientsAndHessiansPointer = .ok (some 4096) ∧
    sampleFrame.GetGradientsAndHessiansPointerConst = .ok (some 4096) ∧
    sampleFrame.GetPredictorScores = .ok (some 8192) ∧
    sampleFrame.GetTargetDataPointer = .ok (some 12288) ∧
    sampleFrame.GetInputDataPointer (some ⟨2⟩) = .ok (some 24576) ∧
    sampleFrame.GetInputDataPointer (some ⟨3⟩) = .error .indexInputDataBelowCount ∧
    sampleFrame.GetInputDataPointer none = .error .featureGroupNotNull ∧
    ({ sampleFrame with m_aaInputData := none }).GetInputDataPointer (some ⟨2⟩) =
      .error .inputDataNotNull ∧
    ({ sampleFrame with m_aaInputData := none }).GetInputDataPointer (some ⟨3⟩) =
      .error .indexInputDataBelowCount := by
  refine ⟨rfl, rfl, rfl, rfl, rfl, rfl, rfl, rfl, rfl⟩

end DataFrameBoosting

/-! ## Theorems: BoosterCore accessors and mutators -/

namespace BoosterCore

variable {D : Type}

/-- The count after `n` calls of `AddReferenceCount`, for any starting core. -/
theorem addReferences_count (w n : Nat) (c : BoosterCore D) :
    (addReferences w n c).m_REFERENCE_COUNT =
      if n = 0 then c.m_REFERENCE_COUNT else (c.m_REFERENCE_COUNT + n) % 2 ^ w := by
  induction n generalizing c with
  | zero => simp [addReferences]
  | succ n ih =>
    rw [addReferences, ih]
    by_cases hn : n = 0
    · subst hn; simp [AddReferenceCount]
    · simp only [hn, if_false, Nat.succ_ne_zero, AddReferenceCount]
      rw [Nat.mod_add_mod]
      congr 1
      omega

/-- Claim C3, the claim as worded fails: on a 64-bit word, a core whose count is
`2 ^ 64 - 1` has count `0` after `AddReferenceCount`, not `2 ^ 64`. -/
theorem AddReferenceCount_wraps_at_max :
    ((sampleCore (2 ^ 64 - 1)).AddReferenceCount 64).m_REFERENCE_COUNT = 0 ∧
    ((sampleCore (2 ^ 64 - 1)).AddReferenceCount 64).m_REFERENCE_COUNT ≠
      (sampleCore (2 ^ 64 - 1)).m_REFERENCE_COUNT + 1 := by
  constructor
  · simp [AddReferenceCount, sampleCore]
  · simp [AddReferenceCount, sampleCore]

/-- Claim C3, amended. `AddReferenceCount` increments the reference count by exactly
one modulo `2 ^ w` (by exactly one whenever the count is below `2 ^ w - 1`, and from
`2 ^ w - 1` to `0`) and leaves every other field unchanged. -/
theorem AddReferenceCount_frame (w : Nat) (c : BoosterCore D) :
    (c.AddReferenceCount w).m_REFERENCE_COUNT = (c.m_REFERENCE_COUNT + 1) % 2 ^ w ∧
    (c.m_REFERENCE_COUNT + 1 < 2 ^ w →
      (c.AddReferenceCount w).m_REFERENCE_COUNT = c.m_REFERENCE_COUNT + 1) ∧
    (c.m_REFERENCE_COUNT + 1 = 2 ^ w → (c.AddReferenceCount w).m_REFERENCE_COUNT = 0) ∧
    (c.AddReferenceCount w).m_cClasses = c.m_cClasses ∧
    (c.AddReferenceCount w).m_cFeatures = c.m_cFeatures ∧
    (c.AddReferenceCount w).m_aFeatures = c.m_aFeatures ∧
    (c.AddReferenceCount w).m_cTerms = c.m_cTerms ∧
    (c.AddReferenceCount w).m_apTerms = c.m_apTerms ∧
    (c.AddReferenceCount w).m_cInnerBags = c.m_cInnerBags ∧
    (c.AddReferenceCount w).m_apInnerBags = c.m_apInnerBags ∧
    (c.AddReferenceCount w).m_validationWeightTotal = c.m_validationWeightTotal ∧
    (c.AddReferenceCount w).m_aValidationWeights = c.m_aValidationWeights ∧
    (c.AddReferenceCount w).m_apCurrentTermTensors = c.m_apCurrentTermTensors ∧
    (c.AddReferenceCount w).m_apBestTermTensors = c.m_apBestTermTensors ∧
    (c.AddReferenceCount w).m_bestModelMetric = c.m_bestModelMetric ∧
    (c.AddReferenceCount w).m_cBytesFastBins = c.m_cBytesFastBins ∧
    (c.AddReferenceCount w).m_cBytesBigBins = c.m_cBytesBigBins ∧
    (c.AddReferenceCount w).m_cBytesSplitPositions = c.m_cBytesSplitPositions ∧
    (c.AddReferenceCount w).m_cBytesTreeNodes = c.m_cBytesTreeNodes ∧
    (c.AddReferenceCount w).m_trainingSet = c.m_trainingSet ∧
    (c.AddReferenceCount w).m_validationSet = c.m_validationSet := by
  refine ⟨rfl, ?_, ?_, rfl, rfl, rfl, rfl, rfl, rfl, rfl, rfl, rfl, rfl, rfl, rfl, rfl, rfl,
    rfl, rfl, rfl, rfl⟩
  · intro h
    exact Nat.mod_eq_of_lt h
  · intro h
    show (c.m_REFERENCE_COUNT + 1) % 2 ^ w = 0
    rw [h, Nat.mod_self]

/-- Claim C4. After `SetBestModelMetric x` the getter `GetBestModelMetric` returns
`x`, whatever the previous value was, and every other field is unchanged; neither
`AddReferenceCount` nor any getter changes what `GetBestModelMetric` returns. -/
theorem SetBestModelMetric_sole_mutator (w : Nat) (c : BoosterCore D) (x : FloatBits) :
    (c.SetBestModelMetric x).GetBestModelMetric.1 = x ∧
    (c.SetBestModelMetric x) = { c with m_bestModelMetric := x } ∧
    ((c.SetBestModelMetric x).m_REFERENCE_COUNT = c.m_REFERENCE_COUNT ∧
     (c.SetBestModelMetric x).m_cClasses = c.m_cClasses ∧
     (c.SetBestModelMetric x).m_cFeatures = c.m_cFeatures ∧
     (c.SetBestModelMetric x).m_aFeatures = c.m_aFeatures ∧
     (c.SetBestModelMetric x).m_cTerms = c.m_cTerms ∧
     (c.SetBestModelMetric x).m_apTerms = c.m_apTerms ∧
     (c.SetBestModelMetric x).m_cInnerBags = c.m_cInnerBags ∧
     (c.SetBestModelMetric x).m_apInnerBags = c.m_apInnerBags ∧
     (c.SetBestModelMetric x).m_validationWeightTotal = c.m_validationWeightTotal ∧
     (c.SetBestModelMetric x).m_aValidationWeights = c.m_aValidationWeights ∧
     (c.SetBestModelMetric x).m_apCurrentTermTensors = c.m_apCurrentTermTensors ∧
     (c.SetBestModelMetric x).m_apBestTermTensors = c.m_apBestTermTensors ∧
     (c.SetBestModelMetric x).m_cBytesFastBins = c.m_cBytesFastBins ∧
     (c.SetBestModelMetric x).m_cBytesBigBins = c.m_cBytesBigBins ∧
     (c.SetBestModelMetric x).m_cBytesSplitPositions = c.m_cBytesSplitPositions ∧
     (c.SetBestModelMetric x).m_cBytesTreeNodes = c.m_cBytesTreeNodes ∧
     (c.SetBestModelMetric x).m_trainingSet = c.m_trainingSet ∧
     (c.SetBestModelMetric x).m_validationSet = c.m_validationSet) ∧
    ((c.AddReferenceCount w).GetBestModelMetric.1 = c.GetBestModelMetric.1 ∧
     c.GetCountClasses.2.GetBestModelMetric.1 = c.GetBestModelMetric.1 ∧
     c.GetCountBytesFastBins.2.GetBestModelMetric.1 = c.GetBestModelMetric.1 ∧
     c.GetCountBytesBigBins.2.GetBestModelMetric.1 = c.GetBestModelMetric.1 ∧
     c.GetCountBytesSplitPositions.2.GetBestModelMetric.1 = c.GetBestModelMetric.1 ∧
     c.GetCountBytesTreeNodes.2.GetBestModelMetric.1 = c.GetBestModelMetric.1 ∧
     c.GetCountTerms.2.GetBestModelMetric.1 = c.GetBestModelMetric.1 ∧
     c.GetTerms.2.GetBestModelMetric.1 = c.GetBestModelMetric.1 ∧
     c.GetTrainingSet.2.GetBestModelMetric.1 = c.GetBestModelMetric.1 ∧
     c.GetValidationSet.2.GetBestModelMetric.1 = c.GetBestModelMetric.1 ∧
     c.GetCountInnerBags.2.GetBestModelMetric.1 = c.GetBestModelMetric.1 ∧
     c.GetInnerBags.2.GetBestModelMetric.1 = c.GetBestModelMetric.1 ∧
     c.GetValidationWeightTotal.2.GetBestModelMetric.1 = c.GetBestModelMetric.1 ∧
     c.GetValidationWeights.2.GetBestModelMetric.1 = c.GetBestModelMetric.1 ∧
     c.GetCurrentModel.2.GetBestModelMetric.1 = c.GetBestModelMetric.1 ∧
     c.GetBestModel.2.GetBestModelMetric.1 = c.GetBestModelMetric.1 ∧
     c.GetBestModelMetric.2.GetBestModelMetric.1 = c.GetBestModelMetric.1) := by
  refine ⟨rfl, rfl, ⟨rfl, rfl, rfl, rfl, rfl, rfl, rfl, rfl, rfl, rfl, rfl, rfl, rfl, rfl,
    rfl, rfl, rfl, rfl⟩, ⟨rfl, rfl, rfl, rfl, rfl, rfl, rfl, rfl, rfl, rfl, rfl, rfl, rfl,
    rfl, rfl, rfl, rfl⟩⟩

/-- Claim C5. Every getter returns its own attribute and leaves the core as it was:
the result pairs the named field with the unchanged state. `GetTrainingSet` and
`GetValidationSet` return the address of their own member, which reads back as that
member. -/
theorem getters_read_only (c : BoosterCore D) :
    c.GetCountClasses = (c.m_cClasses, c) ∧
    c.GetCountBytesFastBins = (c.m_cBytesFastBins, c) ∧
    c.GetCountBytesBigBins = (c.m_cBytesBigBins, c) ∧
    c.GetCountBytesSplitPositions = (c.m_cBytesSplitPositions, c) ∧
    c.GetCountBytesTreeNodes = (c.m_cBytesTreeNodes, c) ∧
    c.GetCountTerms = (c.m_cTerms, c) ∧
    c.GetTerms = (c.m_apTerms, c) ∧
    c.GetCountInnerBags = (c.m_cInnerBags, c) ∧
    c.GetInnerBags = (c.m_apInnerBags, c) ∧
    c.GetValidationWeightTotal = (c.m_validationWeightTotal, c) ∧
    c.GetValidationWeights = (c.m_aValidationWeights, c) ∧
    c.GetCurrentModel = (c.m_apCurrentTermTensors, c) ∧
    c.GetBestModel = (c.m_apBestTermTensors, c) ∧
    c.GetBestModelMetric = (c.m_bestModelMetric, c) ∧
    c.GetTrainingSet = (DataSetMember.m_trainingSet, c) ∧
    c.deref c.GetTrainingSet.1 = c.m_trainingSet ∧
    c.GetValidationSet = (DataSetMember.m_validationSet, c) ∧
    c.deref c.GetValidationSet.1 = c.m_validationSet :=
  ⟨rfl, rfl, rfl, rfl, rfl, rfl, rfl, rfl, rfl, rfl, rfl, rfl, rfl, rfl, rfl, rfl, rfl, rfl⟩

/-- On the populated sample core no two getters of the same result type agree, so a
crossed getter would be visible there. -/
theorem getters_distinct_on_sample :
    [(sampleCore 1).GetCountBytesFastBins.1, (sampleCore 1).GetCountBytesBigBins.1,
     (sampleCore 1).GetCountBytesSplitPositions.1, (sampleCore 1).GetCountBytesTreeNodes.1,
     (sampleCore 1).GetCountTerms.1, (sampleCore 1).GetCountInnerBags.1] =
      [64, 128, 32, 256, 2, 1] ∧
    [(sampleCore 1).GetTerms.1, (sampleCore 1).GetInnerBags.1,
     (sampleCore 1).GetValidationWeights.1, (sampleCore 1).GetCurrentModel.1,
     (sampleCore 1).GetBestModel.1] =
      [some 2000, some 3000, some 4000, some 5000, some 6000] ∧
    (sampleCore 1).GetCountClasses.1 = 2 ∧
    (sampleCore 1).deref (sampleCore 1).GetTrainingSet.1 = 7 ∧
    (sampleCore 1).deref (sampleCore 1).GetValidationSet.1 = 8 := by
  refine ⟨rfl, rfl, rfl, rfl, rfl⟩

end BoosterCore

/-! ## Theorems: construction and teardown -/

namespace BoosterCore

variable {D : Type}

/-- Claim C6. The destructor makes exactly eight release calls: `Destruct` on the
training and on the validation dataset, `FreeInnerBags` with `m_cInnerBags`, `free`
of the validation weights, `FreeTerms` with `m_cTerms`, `free` of the features, and
`DeleteTensors` on the current and on the best tensor array, both with `m_cTerms`.
Each owned field is released exactly once and none is left out. -/
theorem destructor_releases_each_once (c : BoosterCore D) :
    c.destructor =
      [ ReleaseCall.Destruct .m_trainingSet,
        ReleaseCall.Destruct .m_validationSet,
        ReleaseCall.FreeInnerBags c.m_cInnerBags c.m_apInnerBags .m_apInnerBags,
        ReleaseCall.free c.m_aValidationWeights .m_aValidationWeights,
        ReleaseCall.FreeTerms c.m_cTerms c.m_apTerms .m_apTerms,
        ReleaseCall.free c.m_aFeatures .m_aFeatures,
        ReleaseCall.DeleteTensors c.m_cTerms c.m_apCurrentTermTensors .m_apCurrentTermTensors,
        ReleaseCall.DeleteTensors c.m_cTerms c.m_apBestTermTensors .m_apBestTermTensors ] ∧
    (∀ f : OwnedField, (c.destructor.map ReleaseCall.target).count f = 1) ∧
    (c.destructor.map ReleaseCall.target).Nodup ∧
    (∀ f : OwnedField, f ∈ c.destructor.map ReleaseCall.target) ∧
    (c.destructor.map ReleaseCall.target).Perm OwnedField.all := by
  refine ⟨rfl, ?_, ?_, ?_, ?_⟩
  · intro f
    cases f <;> rfl
  · simp [destructor, ReleaseCall.target]
  · intro f
    cases f <;> simp [destructor, ReleaseCall.target]
  · simp only [destructor, ReleaseCall.target, OwnedField.all, List.map]
    decide

/-- The destructor on the populated sample core, evaluated. -/
theorem destructor_on_sample :
    (sampleCore 1).destructor =
      [ ReleaseCall.Destruct .m_trainingSet,
        ReleaseCall.Destruct .m_validationSet,
        ReleaseCall.FreeInnerBags 1 (some 3000) .m_apInnerBags,
        ReleaseCall.free (some 4000) .m_aValidationWeights,
        ReleaseCall.FreeTerms 2 (some 2000) .m_apTerms,
        ReleaseCall.free (some 1000) .m_aFeatures,
        ReleaseCall.DeleteTensors 2 (some 5000) .m_apCurrentTermTensors,
        ReleaseCall.DeleteTensors 2 (some 6000) .m_apBestTermTensors ] := rfl

/-- Teardown as `Free` runs it: the storage is released exactly when the destructor
ran, and the calls made are the destructor's. -/
theorem Free_teardown_is_destructor (w : Nat) (c : BoosterCore D) :
    (∀ calls, (c.Free w).2 = some calls → calls = c.destructor) ∧
    ((c.Free w).1 = none ↔ (c.Free w).2 = some c.destructor) := by
  refine ⟨?_, ?_⟩
  · intro calls h
    unfold Free at h
    by_cases h0 : (c.m_REFERENCE_COUNT + 2 ^ w - 1) % 2 ^ w = 0
    · simp [h0] at h
      exact h.symm
    · simp [h0] at h
  · unfold Free
    by_cases h0 : (c.m_REFERENCE_COUNT + 2 ^ w - 1) % 2 ^ w = 0 <;> simp [h0]

/-- Claim C7. A freshly constructed core has reference count 1, every owned
pointer null, every count and byte budget zero, validation weight total and best
metric zero, and both datasets in the state `InitializeUnfailing` leaves them in.
The destructor run on it therefore passes only null pointers with zero counts, and
the current and best tensor arrays are equal (both null, both counted by
`m_cTerms = 0`). -/
theorem new_initial_state (InitializeUnfailing : D → D) (rawTraining rawValidation : D) :
    (new InitializeUnfailing rawTraining rawValidation).m_REFERENCE_COUNT = 1 ∧
    ((new InitializeUnfailing rawTraining rawValidation).m_aFeatures = nullptr ∧
     (new InitializeUnfailing rawTraining rawValidation).m_apTerms = nullptr ∧
     (new InitializeUnfailing rawTraining rawValidation).m_apInnerBags = nullptr ∧
     (new InitializeUnfailing rawTraining rawValidation).m_aValidationWeights = nullptr ∧
     (new InitializeUnfailing rawTraining rawValidation).m_apCurrentTermTensors = nullptr ∧
     (new InitializeUnfailing rawTraining rawValidation).m_apBestTermTensors = nullptr) ∧
    ((new InitializeUnfailing rawTraining rawValidation).m_cClasses = 0 ∧
     (new InitializeUnfailing rawTraining rawValidation).m_cFeatures = 0 ∧
     (new InitializeUnfailing rawTraining rawValidation).m_cTerms = 0 ∧
     (new InitializeUnfailing rawTraining rawValidation).m_cInnerBags = 0 ∧
     (new InitializeUnfailing rawTraining rawValidation).m_cBytesFastBins = 0 ∧
     (new InitializeUnfailing rawTraining rawValidation).m_cBytesBigBins = 0 ∧
     (new InitializeUnfailing rawTraining rawValidation).m_cBytesSplitPositions = 0 ∧
     (new InitializeUnfailing rawTraining rawValidation).m_cBytesTreeNodes = 0) ∧
    (new InitializeUnfailing rawTraining rawValidation).m_validationWeightTotal = 0 ∧
    (new InitializeUnfailing rawTraining rawValidation).m_bestModelMetric = 0 ∧
    (new InitializeUnfailing rawTraining rawValidation).m_trainingSet =
      InitializeUnfailing rawTraining ∧
    (new InitializeUnfailing rawTraining rawValidation).m_validationSet =
      InitializeUnfailing rawValidation ∧
    (new InitializeUnfailing rawTraining rawValidation).destructor =
      [ ReleaseCall.Destruct .m_trainingSet,
        ReleaseCall.Destruct .m_validationSet,
        ReleaseCall.FreeInnerBags 0 nullptr .m_apInnerBags,
        ReleaseCall.free nullptr .m_aValidationWeights,
        ReleaseCall.FreeTerms 0 nullptr .m_apTerms,
        ReleaseCall.free nullptr .m_aFeatures,
        ReleaseCall.DeleteTensors 0 nullptr .m_apCurrentTermTensors,
        ReleaseCall.DeleteTensors 0 nullptr .m_apBestTermTensors ] ∧
    (new InitializeUnfailing rawTraining rawValidation).GetCurrentModel.1 =
      (new InitializeUnfailing rawTraining rawValidation).GetBestModel.1 :=
  ⟨rfl, ⟨rfl, rfl, rfl, rfl, rfl, rfl⟩, ⟨rfl, rfl, rfl, rfl, rfl, rfl, rfl, rfl⟩, rfl, rfl,
    rfl, rfl, rfl, rfl⟩

/-- The count of a new core after `n` added references, on a word of at least one
bit. -/
theorem new_count_after_adds (w : Nat) (hw : 0 < w) (n : Nat)
    (InitializeUnfailing : D → D) (rawTraining rawValidation : D) :
    (addReferences w n (new InitializeUnfailing rawTraining rawValidation)).m_REFERENCE_COUNT =
      (1 + n) % 2 ^ w := by
  have h2 : 2 ≤ 2 ^ w := by
    calc 2 = 2 ^ 1 := by norm_num
      _ ≤ 2 ^ w := Nat.pow_le_pow_right (by norm_num) hw
  rw [addReferences_count]
  by_cases hn : n = 0
  · subst hn
    simp only [if_true, Nat.add_zero]
    show 1 = 1 % 2 ^ w
    rw [Nat.mod_eq_of_lt (by omega)]
  · simp only [hn, if_false]
    rfl

/-- Claim C10. On a `size_t` of `w ≥ 1` bits, a freshly constructed core that
received `n` calls of `AddReferenceCount` has count `(1 + n) % 2 ^ w`; for
`n < 2 ^ w - 1` this is `n + 1`, so at least 1; and the count is `0` exactly when
`n` is congruent to `2 ^ w - 1` modulo `2 ^ w`. -/
theorem reference_count_after_adds (w : Nat) (hw : 0 < w) (n : Nat)
    (InitializeUnfailing : D → D) (rawTraining rawValidation : D) :
    (addReferences w n (new InitializeUnfailing rawTraining rawValidation)).m_REFERENCE_COUNT =
      (1 + n) % 2 ^ w ∧
    (n < 2 ^ w - 1 →
      (addReferences w n
          (new InitializeUnfailing rawTraining rawValidation)).m_REFERENCE_COUNT = n + 1 ∧
      1 ≤ (addReferences w n
          (new InitializeUnfailing rawTraining rawValidation)).m_REFERENCE_COUNT) ∧
    ((addReferences w n
        (new InitializeUnfailing rawTraining rawValidation)).m_REFERENCE_COUNT = 0 ↔
      n % 2 ^ w = 2 ^ w - 1) := by
  have h2 : 2 ≤ 2 ^ w := by
    calc 2 = 2 ^ 1 := by norm_num
      _ ≤ 2 ^ w := Nat.pow_le_pow_right (by norm_num) hw
  have hcount := new_count_after_adds w hw n InitializeUnfailing rawTraining
    rawValidation
  refine ⟨hcount, ?_, ?_⟩
  · intro hn
    rw [hcount, Nat.mod_eq_of_lt (by omega)]
    omega
  · rw [hcount]
    have hlt : n % 2 ^ w < 2 ^ w := Nat.mod_lt _ (by omega)
    have hsplit : (1 + n) % 2 ^ w = (1 + n % 2 ^ w) % 2 ^ w := by
      rw [Nat.add_mod, Nat.mod_eq_of_lt (show 1 < 2 ^ w by omega), Nat.add_mod 1 (n % 2 ^ w),
        Nat.mod_mod, Nat.mod_eq_of_lt (show 1 < 2 ^ w by omega)]
    rw [hsplit]
    constructor
    · intro h0
      by_contra hne
      have : 1 + n % 2 ^ w < 2 ^ w := by omega
      rw [Nat.mod_eq_of_lt this] at h0
      omega
    · intro he
      rw [he, show 1 + (2 ^ w - 1) = 2 ^ w by omega, Nat.mod_self]

/-- Claim C10 at a concrete input: 64-bit word, five added references. -/
theorem reference_count_after_adds_witness :
    (addReferences 64 5 freshCore).m_REFERENCE_COUNT = (1 + 5) % 2 ^ 64 ∧
    (5 < 2 ^ 64 - 1 →
      (addReferences 64 5 freshCore).m_REFERENCE_COUNT = 5 + 1 ∧
      1 ≤ (addReferences 64 5 freshCore).m_REFERENCE_COUNT) ∧
    ((addReferences 64 5 freshCore).m_REFERENCE_COUNT = 0 ↔ 5 % 2 ^ 64 = 2 ^ 64 - 1) :=
  reference_count_after_adds 64 (by decide) 5 (fun _ => 0) 7 8

end BoosterCore

/-! ## Theorems: the reference-count protocol -/

section Lifecycle

variable {D : Type}

/-- `Free` on a core holding the last reference: the count reaches zero, the
storage is released and the destructor runs. -/
theorem Free_last_reference (w : Nat) (c : BoosterCore D)
    (hc : c.m_REFERENCE_COUNT % 2 ^ w = 1 % 2 ^ w) :
    c.Free w = (none, some c.destructor) := by
  have hpos : 0 < 2 ^ w := Nat.two_pow_pos w
  have h0 : (c.m_REFERENCE_COUNT + 2 ^ w - 1) % 2 ^ w = 0 := by
    have e : c.m_REFERENCE_COUNT + 2 ^ w - 1 = c.m_REFERENCE_COUNT + (2 ^ w - 1) := by omega
    rw [e, Nat.add_mod, hc, ← Nat.add_mod, show 1 + (2 ^ w - 1) = 2 ^ w by omega,
      Nat.mod_self]
  simp [BoosterCore.Free, h0]

/-- `Free` on a core that other holders still reference: the count goes down by one
and nothing is torn down. -/
theorem Free_other_references (w : Nat) (c : BoosterCore D) (b : Nat) (hb : 2 ≤ b)
    (hbw : b ≤ 2 ^ w) (hc : c.m_REFERENCE_COUNT % 2 ^ w = b % 2 ^ w) :
    ∃ c2 : BoosterCore D, c.Free w = (some c2, none) ∧
      c2.m_REFERENCE_COUNT % 2 ^ w = (b - 1) % 2 ^ w := by
  have hpos : 0 < 2 ^ w := Nat.two_pow_pos w
  have hval : (c.m_REFERENCE_COUNT + 2 ^ w - 1) % 2 ^ w = b - 1 := by
    have e : c.m_REFERENCE_COUNT + 2 ^ w - 1 = c.m_REFERENCE_COUNT + (2 ^ w - 1) := by omega
    rw [e, Nat.add_mod, hc, ← Nat.add_mod, show b + (2 ^ w - 1) = (b - 1) + 2 ^ w by omega,
      Nat.add_mod_right, Nat.mod_eq_of_lt (by omega)]
  have hne : (c.m_REFERENCE_COUNT + 2 ^ w - 1) % 2 ^ w ≠ 0 := by omega
  refine ⟨{ c with m_REFERENCE_COUNT := (c.m_REFERENCE_COUNT + 2 ^ w - 1) % 2 ^ w }, ?_, ?_⟩
  · simp [BoosterCore.Free, hne]
  · show (c.m_REFERENCE_COUNT + 2 ^ w - 1) % 2 ^ w % 2 ^ w = (b - 1) % 2 ^ w
    rw [Nat.mod_mod, hval, Nat.mod_eq_of_lt (by omega)]

/-- A run from a live core that holds `b` references, when the calls give up
exactly the references held and added, never the last one before the end. -/
theorem runLifecycle_balanced (w : Nat) (ops : List LifecycleCall) :
    ∀ (c : BoosterCore D) (b : Nat), 1 ≤ b →
      c.m_REFERENCE_COUNT % 2 ^ w = b % 2 ^ w →
      b + ops.count LifecycleCall.AddReferenceCount ≤ 2 ^ w →
      ops.count LifecycleCall.Free = ops.count LifecycleCall.AddReferenceCount + b →
      (∀ k, k < ops.length →
        (ops.take k).count LifecycleCall.Free + 1 ≤
          (ops.take k).count LifecycleCall.AddReferenceCount + b) →
      runLifecycle w (some c) ops =
        List.replicate (ops.length - 1) (CallOutcome.returned false) ++
          [CallOutcome.returned true] ∧
      ops.getLast? = some LifecycleCall.Free := by
  induction ops with
  | nil =>
    intro c b hb _ _ hbal _
    simp at hbal
    omega
  | cons op rest ih =>
    intro c b hb hc hw hbal hpre
    cases op with
    | AddReferenceCount =>
      cases rest with
      | nil =>
        simp at hbal
        omega
      | cons y ys =>
        have hstep := ih (c.AddReferenceCount w) (b + 1) (by omega)
          (by
            show (c.m_REFERENCE_COUNT + 1) % 2 ^ w % 2 ^ w = (b + 1) % 2 ^ w
            rw [Nat.mod_mod, Nat.add_mod, hc, ← Nat.add_mod])
          (by simp at hw ⊢; omega)
          (by simp at hbal ⊢; omega)
          (by
            intro k hk
            have := hpre (k + 1) (by simp at hk ⊢; omega)
            simp only [List.take_succ_cons, List.count_cons] at this
            simp at this
            omega)
        refine ⟨?_, ?_⟩
        · show CallOutcome.returned false ::
            runLifecycle w (some (c.AddReferenceCount w)) (y :: ys) = _
          rw [hstep.1]
          simp [List.replicate_succ]
        · rw [List.getLast?_cons_cons]
          exact hstep.2
    | Free =>
      cases rest with
      | nil =>
        have hb1 : b = 1 := by
          simp at hbal
          omega
        subst hb1
        have hf := Free_last_reference w c hc
        simp [runLifecycle, lifecycleStep, hf]
      | cons x xs =>
        have hb2 : 2 ≤ b := by
          have := hpre 1 (by simp)
          simp at this
          omega
        obtain ⟨c2, hf, hc2⟩ := Free_other_references w c b hb2 (by omega) hc
        have hstep := ih c2 (b - 1) (by omega) hc2
          (by simp at hw ⊢; omega)
          (by simp at hbal ⊢; omega)
          (by
            intro k hk
            have := hpre (k + 1) (by simp at hk ⊢; omega)
            simp only [List.take_succ_cons, List.count_cons] at this
            simp at this
            omega)
        refine ⟨?_, ?_⟩
        · show (lifecycleStep w c LifecycleCall.Free).2 ::
            runLifecycle w (lifecycleStep w c LifecycleCall.Free).1 (x :: xs) = _
          simp only [lifecycleStep, hf, Option.isSome_none]
          rw [hstep.1]
          simp [List.replicate_succ]
        · rw [List.getLast?_cons_cons]
          exact hstep.2

/-- A run that starts with `n` calls of `AddReferenceCount`. -/
theorem runLifecycle_adds (w n : Nat) (rest : List LifecycleCall) :
    ∀ c : BoosterCore D,
      runLifecycle w (some c) (List.replicate n LifecycleCall.AddReferenceCount ++ rest) =
        List.replicate n (CallOutcome.returned false) ++
          runLifecycle w (some (BoosterCore.addReferences w n c)) rest := by
  induction n with
  | zero => intro c; rfl
  | succ n ih =>
    intro c
    show CallOutcome.returned false ::
      runLifecycle w (some (c.AddReferenceCount w))
        (List.replicate n LifecycleCall.AddReferenceCount ++ rest) = _
    rw [ih]
    rfl

/-- Calls made once the storage is released. -/
theorem runLifecycle_released (w : Nat) (ops : List LifecycleCall) :
    @runLifecycle D w none ops = List.replicate ops.length CallOutcome.useAfterRelease := by
  induction ops with
  | nil => rfl
  | cons op rest ih =>
    show CallOutcome.useAfterRelease :: @runLifecycle D w none rest = _
    rw [ih]
    rfl

/-- The bound on `N` in the amended claim C1 is needed: after `2 ^ w` calls of
`AddReferenceCount` the `w`-bit count of a new core is back at 1, so the first of
the `2 ^ w + 1` calls of `Free` that follow already runs teardown. -/
theorem teardown_early_when_count_wraps (w : Nat) (hw : 0 < w) (InitializeUnfailing : D → D)
    (rawTraining rawValidation : D) :
    runLifecycle w (some (BoosterCore.new InitializeUnfailing rawTraining rawValidation))
        (List.replicate (2 ^ w) LifecycleCall.AddReferenceCount ++
          LifecycleCall.Free :: List.replicate (2 ^ w) LifecycleCall.Free) =
      List.replicate (2 ^ w) (CallOutcome.returned false) ++
        CallOutcome.returned true :: List.replicate (2 ^ w) CallOutcome.useAfterRelease := by
  have hpos : 0 < 2 ^ w := Nat.two_pow_pos w
  have hcount := (BoosterCore.new_count_after_adds w hw (2 ^ w) InitializeUnfailing
    rawTraining rawValidation)
  rw [runLifecycle_adds]
  congr 1
  have hf := Free_last_reference w
    (BoosterCore.addReferences w (2 ^ w)
      (BoosterCore.new InitializeUnfailing rawTraining rawValidation))
    (by rw [hcount, Nat.mod_mod, Nat.add_mod_right])
  show (lifecycleStep w _ LifecycleCall.Free).2 ::
    runLifecycle w (lifecycleStep w _ LifecycleCall.Free).1 _ = _
  simp only [lifecycleStep, hf, Option.isSome_some]
  rw [runLifecycle_released, List.length_replicate]

/-- Claim C1, the claim as worded fails: with one `AddReferenceCount` and two `Free`
calls in the order `Free`, `AddReferenceCount`, `Free`, teardown runs at the first
call, not at the final `Free`; the two later calls reach a released core. -/
theorem teardown_before_final_Free :
    [LifecycleCall.Free, LifecycleCall.AddReferenceCount, LifecycleCall.Free].count
        LifecycleCall.AddReferenceCount = 1 ∧
    [LifecycleCall.Free, LifecycleCall.AddReferenceCount, LifecycleCall.Free].count
        LifecycleCall.Free = 1 + 1 ∧
    runLifecycle 64 (some BoosterCore.freshCore)
        [LifecycleCall.Free, LifecycleCall.AddReferenceCount, LifecycleCall.Free] =
      [CallOutcome.returned true, CallOutcome.useAfterRelease, CallOutcome.useAfterRelease] ∧
    runLifecycle 64 (some BoosterCore.freshCore)
        [LifecycleCall.Free, LifecycleCall.AddReferenceCount, LifecycleCall.Free] ≠
      [CallOutcome.returned false, CallOutcome.returned false, CallOutcome.returned true] := by
  have hrun : runLifecycle 64 (some BoosterCore.freshCore)
      [LifecycleCall.Free, LifecycleCall.AddReferenceCount, LifecycleCall.Free] =
      [CallOutcome.returned true, CallOutcome.useAfterRelease,
        CallOutcome.useAfterRelease] := by
    simp [runLifecycle, lifecycleStep, BoosterCore.Free, BoosterCore.freshCore,
      BoosterCore.new]
  refine ⟨by decide, by decide, hrun, ?_⟩
  rw [hrun]
  decide

/-- Claim C1, amended. Starting from a newly created core, for any sequence of `N`
`AddReferenceCount` calls and `N + 1` `Free` calls with `N < 2 ^ w`, interleaved so
that no proper prefix has more `Free` than `AddReferenceCount` calls (each call is
made while a reference is still held), every call returns, teardown runs exactly
once, and it runs at the last call, which is a `Free`. -/
theorem teardown_once_at_final_Free (w N : Nat) (InitializeUnfailing : D → D)
    (rawTraining rawValidation : D) (ops : List LifecycleCall)
    (hadd : ops.count LifecycleCall.AddReferenceCount = N)
    (hfree : ops.count LifecycleCall.Free = N + 1)
    (hN : N < 2 ^ w)
    (hheld : ∀ k, k < ops.length →
      (ops.take k).count LifecycleCall.Free ≤
        (ops.take k).count LifecycleCall.AddReferenceCount) :
    runLifecycle w (some (BoosterCore.new InitializeUnfailing rawTraining rawValidation)) ops =
      List.replicate (ops.length - 1) (CallOutcome.returned false) ++
        [CallOutcome.returned true] ∧
    ops.getLast? = some LifecycleCall.Free ∧
    (runLifecycle w (some (BoosterCore.new InitializeUnfailing rawTraining rawValidation))
      ops).count (CallOutcome.returned true) = 1 := by
  have h := runLifecycle_balanced w ops
    (BoosterCore.new InitializeUnfailing rawTraining rawValidation) 1 (le_refl 1) rfl
    (by omega) (by omega)
    (by
      intro k hk
      have := hheld k hk
      omega)
  refine ⟨h.1, h.2, ?_⟩
  rw [h.1, List.count_append, List.count_replicate]
  simp

/-- Claim C1, amended, at a concrete input: two added references on a 64-bit count,
calls in the order add, free, add, free, free. -/
theorem teardown_once_at_final_Free_witness :
    runLifecycle 64 (some BoosterCore.freshCore)
        [LifecycleCall.AddReferenceCount, LifecycleCall.Free, LifecycleCall.AddReferenceCount,
          LifecycleCall.Free, LifecycleCall.Free] =
      [CallOutcome.returned false, CallOutcome.returned false, CallOutcome.returned false,
        CallOutcome.returned false, CallOutcome.returned true] :=
  (teardown_once_at_final_Free 64 2 (fun _ => 0) 7 8
    [LifecycleCall.AddReferenceCount, LifecycleCall.Free, LifecycleCall.AddReferenceCount,
      LifecycleCall.Free, LifecycleCall.Free]
    (by decide) (by decide) (by norm_num) (by decide)).1

end Lifecycle

end EbmNative
